import Mathlib

/-!
Verification of the Tepilora python client request-execution core
(Tepilora/client.py and Tepilora/models.py) against its specification.

Modelling conventions:
- Python floats and Decimals are modelled as rationals (ℚ); the claims under
  study never depend on IEEE-754 rounding, only on which values flow where.
- Python values appearing in request params are modelled by the inductive
  `PyVal`; JSON values decoded from response bodies by `JVal`.
- Header values that the code feeds to int()/float()/date parsing are
  modelled by small sum types recording the outcome of that parse, at the
  exact granularity the source distinguishes (absent / empty / parse
  failure / parsed value).
-/

namespace Tepilora

/-! ## Python values and the param sanitizer (client.py lines 40-50) -/

/-- Model of a Python value that can appear in request params.
The constructors cover exactly the isinstance branches of
client._sanitize_params: Decimal, datetime, date, dict, list, tuple,
and the pass-through atoms (None, bool, int, float, str, anything else). -/
inductive PyVal where
  | pyNone : PyVal
  | pyBool (b : Bool) : PyVal
  | pyInt (n : ℤ) : PyVal
  | pyFloat (q : ℚ) : PyVal
  | pyDecimal (q : ℚ) : PyVal
  | pyStr (s : String) : PyVal
  | pyDate (y m d : ℕ) : PyVal
  | pyDatetime (y m d hh mi ss us : ℕ) : PyVal
  | pyDict (fields : List (String × PyVal)) : PyVal
  | pyList (items : List PyVal) : PyVal
  | pyTuple (items : List PyVal) : PyVal
  | pyOther : PyVal

/-- Zero-padded decimal rendering of a natural number to width w,
as produced by python percent formatting in date.isoformat. -/
def padNum (w : ℕ) (n : ℕ) : String :=
  let s := toString n
  String.mk (List.replicate (w - s.length) '0') ++ s

/-- ISO-8601 rendering of a python date: YYYY-MM-DD (date.isoformat). -/
def isoDate (y m d : ℕ) : String :=
  padNum 4 y ++ "-" ++ padNum 2 m ++ "-" ++ padNum 2 d

/-- ISO-8601 rendering of a naive python datetime (datetime.isoformat):
date part, the letter T, HH:MM:SS, and the microseconds suffix only when
the microsecond field is nonzero. -/
def isoDatetime (y m d hh mi ss us : ℕ) : String :=
  isoDate y m d ++ "T" ++ padNum 2 hh ++ ":" ++ padNum 2 mi ++ ":" ++ padNum 2 ss ++
    (if us = 0 then "" else "." ++ padNum 6 us)

mutual

/-- Embedding of client._sanitize_params: Decimal becomes float, date and
datetime become their isoformat strings, dicts and lists recurse
element-wise, tuples become lists of sanitized elements (python json
serialization of the resulting list), every other value passes through. -/
def sanitize_params : PyVal → PyVal
  | .pyDecimal q => .pyFloat q
  | .pyDatetime y m d hh mi ss us => .pyStr (isoDatetime y m d hh mi ss us)
  | .pyDate y m d => .pyStr (isoDate y m d)
  | .pyDict fields => .pyDict (sanitizeFields fields)
  | .pyList items => .pyList (sanitizeItems items)
  | .pyTuple items => .pyList (sanitizeItems items)
  | v => v

/-- Element-wise sanitization of dict entries (the dict comprehension on
line 47 of client.py). -/
def sanitizeFields : List (String × PyVal) → List (String × PyVal)
  | [] => []
  | (k, v) :: rest => (k, sanitize_params v) :: sanitizeFields rest

/-- Element-wise sanitization of list and tuple items (the list
comprehension on line 49 of client.py). -/
def sanitizeItems : List PyVal → List PyVal
  | [] => []
  | v :: rest => sanitize_params v :: sanitizeItems rest

end

/-! ## Python string helpers used by client.py -/

/-- Whitespace characters stripped by python str.strip(). -/
def isPySpace (c : Char) : Bool :=
  c = ' ' || c = '\t' || c = '\n' || c = '\r' || c = '\x0b' || c = '\x0c'

/-- Model of python str.strip(): drop leading and trailing whitespace. -/
def pyStrip (s : String) : String :=
  String.mk (((s.toList.dropWhile isPySpace).reverse.dropWhile isPySpace).reverse)

/-- Model of python str.lower() (ASCII case folding; the format keywords and
MIME types under study are ASCII). -/
def pyLower (s : String) : String :=
  String.mk (s.toList.map Char.toLower)

/-- Prefix of a string before the first semicolon, i.e.
python s.split(";", 1)[0]. -/
def beforeSemicolon (s : String) : String :=
  String.mk (s.toList.takeWhile (fun c => c ≠ ';'))

/-! ## Response format negotiation (client.py lines 67-92) -/

/-- Error message raised by _format_to_accept for an unknown keyword; it
lists the valid keywords (python renders the offending string with repr
quoting, which is immaterial here). -/
def formatErrorMessage (response_format : String) : String :=
  "Unsupported response format: " ++ response_format ++
    ". Valid formats: json, arrow, parquet, csv or explicit MIME type"

/-- Embedding of client._format_to_accept: strip and lowercase the format,
map known keywords to fixed MIME types, pass strings containing a slash
through (stripped), and fail with a ValueError otherwise. The Except error
branch models the raised ValueError. -/
def _format_to_accept (response_format : String) : Except String String :=
  let fmt := pyLower (pyStrip response_format)
  if fmt = "json" then .ok "application/json"
  else if fmt = "arrow" then .ok "application/vnd.apache.arrow.stream"
  else if fmt = "parquet" then .ok "application/vnd.apache.parquet"
  else if fmt = "csv" then .ok "text/csv"
  else if response_format.toList.contains '/' then .ok (pyStrip response_format)
  else .error (formatErrorMessage response_format)

/-! ## Retry policy (client.py lines 95-124 and the loop bodies) -/

/-- Outcome of the python-level parsing attempts on a Retry-After header,
at the granularity client._parse_retry_after distinguishes:
absent (headers.get returns None), empty (falsy string), numeric (float()
succeeds with the given value), httpDate (float() fails,
parsedate_to_datetime succeeds; the payload is the signed distance in
seconds from now to the parsed instant), malformed (both parses fail). -/
inductive RetryAfterHeader where
  | absent
  | empty
  | numeric (q : ℚ)
  | httpDate (secondsFromNow : ℚ)
  | malformed
deriving DecidableEq

/-- Embedding of client._parse_retry_after: absent or empty header gives
None; a numeric value is returned only when nonnegative (negative numerics
give None, with no fallback to date parsing because the source returns from
inside the try block); an HTTP date gives its seconds-from-now clamped to 0
from below; a string failing both parses gives None. -/
def _parse_retry_after : RetryAfterHeader → Option ℚ
  | .absent => none
  | .empty => none
  | .numeric q => if 0 ≤ q then some q else none
  | .httpDate s => if 0 < s then some s else some 0
  | .malformed => none

/-- Embedding of client._compute_backoff with the random.uniform(0.75, 1.25)
draw made an explicit jitter argument. -/
def _compute_backoff (base : ℚ) (attempt : ℕ) (jitter : ℚ) : ℚ :=
  base * 2 ^ attempt * jitter

/-- Embedding of client._should_retry_status: a status is retried only when
it is in the configured set and is not a 4xx other than 429. -/
def _should_retry_status (status : ℤ) (retry_status_codes : List ℤ) : Bool :=
  if status ∉ retry_status_codes then false
  else if 400 ≤ status ∧ status < 500 ∧ status ≠ 429 then false
  else true

/-- The sleep delay computed by the retry branch of TepiloraClient.call
(client.py lines 483-486): consult Retry-After only on a 429, fall back to
jittered exponential backoff, clamp the result at 0 from below. -/
def selectDelay (status : ℤ) (retryAfter : RetryAfterHeader) (base : ℚ)
    (attempt : ℕ) (jitter : ℚ) : ℚ :=
  let retry_after := if status = 429 then _parse_retry_after retryAfter else none
  let delay := match retry_after with
    | some d => d
    | none => _compute_backoff base attempt jitter
  if delay < 0 then 0 else delay

/-! ## Header parsing and credit telemetry (models.py lines 92-111,
client.py lines 127-142 and 365-370) -/

/-- Outcome of reading one header value and feeding it to python int(), at
the granularity the two get_int helpers distinguish: absent (headers.get
gives None), empty string, a string int() rejects, or a parsed integer. -/
inductive HeaderVal where
  | absent
  | empty
  | nonNumeric
  | num (n : ℤ)
deriving DecidableEq

/-- Shared embedding of models._get_int (parse_credit_headers) and
client get_int (_parse_binary_meta): absent, empty or unparsable header
values give None, never an error. -/
def header_get_int : HeaderVal → Option ℤ
  | .num n => some n
  | _ => none

/-- Embedding of models.CreditInfo. -/
structure CreditInfo where
  remaining : Option ℤ := none
  used : Option ℤ := none
deriving DecidableEq

/-- Embedding of models.parse_credit_headers over the two credit headers
X-Tepilora-Credits-Remaining and X-Tepilora-Credits-Used. -/
def parse_credit_headers (remainingHdr usedHdr : HeaderVal) : CreditInfo :=
  { remaining := header_get_int remainingHdr, used := header_get_int usedHdr }

/-- Embedding of TepiloraClient._update_credits_from_headers acting on the
pair (self._credits_remaining, self._credits_used): a parsed remaining
value overwrites, a parsed used value is added, absent values leave the
counters unchanged. -/
def _update_credits_from_headers (remaining : Option ℤ) (used : ℤ)
    (remainingHdr usedHdr : HeaderVal) : Option ℤ × ℤ :=
  let credit_info := parse_credit_headers remainingHdr usedHdr
  (match credit_info.remaining with
    | some r => some r
    | none => remaining,
   match credit_info.used with
    | some u => used + u
    | none => used)

/-- Folding the credit update over a sequence of responses, each response
contributing its (remaining, used) header pair in order. -/
def processCredits (st : Option ℤ × ℤ) (hs : List (HeaderVal × HeaderVal)) :
    Option ℤ × ℤ :=
  hs.foldl (fun acc h => _update_credits_from_headers acc.1 acc.2 h.1 h.2) st

/-- Last parsed value in a sequence of optional observations, starting from
an initial value; models a last-write-wins register. -/
def lastObserved (init : Option ℤ) (obs : List (Option ℤ)) : Option ℤ :=
  obs.foldl (fun acc o => match o with | some v => some v | none => acc) init

/-! ## Minimum-SDK-version advisory (client.py lines 148-180) -/

/-- Outcome of reading the X-Tepilora-Min-SDK-Version header: absent covers
a missing or falsy (empty) header, malformed covers a value on which
_parse_semver raises, ver carries the parsed dotted integer tuple. -/
inductive MinSdkHeader where
  | absent
  | malformed
  | ver (v : List ℤ)
deriving DecidableEq

/-- Python tuple comparison on integer tuples (lexicographic, a strict
prefix compares smaller), as used by the comparison current < required in
_check_sdk_version. -/
def pyTupleLt : List ℤ → List ℤ → Bool
  | [], [] => false
  | [], _ :: _ => true
  | _ :: _, [] => false
  | a :: xs, b :: ys => if a < b then true else if b < a then false else pyTupleLt xs ys

/-- Embedding of client._check_sdk_version as a step on the process-global
_upgrade_warned flag. The current argument is the parse of the client's own
version string (None when _parse_semver would raise on it, which the source
catches). Returns the new flag and whether the advisory was emitted by this
step. The function is total: no input raises. -/
def _check_sdk_version (current : Option (List ℤ)) (warned : Bool)
    (hdr : MinSdkHeader) : Bool × Bool :=
  if warned then (warned, false)
  else
    match hdr with
    | .absent => (warned, false)
    | .malformed => (warned, false)
    | .ver required =>
      match current with
      | none => (warned, false)
      | some cur =>
        if pyTupleLt cur required then (true, true) else (warned, false)

/-- Folding the SDK-version check over a sequence of response headers,
counting how many advisories are emitted. -/
def runSdkChecks (current : Option (List ℤ)) :
    Bool → List MinSdkHeader → Bool × ℕ
  | warned, [] => (warned, 0)
  | warned, h :: rest =>
    let step := _check_sdk_version current warned h
    let restRun := runSdkChecks current step.1 rest
    (restRun.1, (if step.2 then 1 else 0) + restRun.2)

/-! ## JSON values and response models (models.py) -/

/-- Model of a decoded JSON value as python json.loads produces it. -/
inductive JVal where
  | jNull
  | jBool (b : Bool)
  | jInt (n : ℤ)
  | jFloat (q : ℚ)
  | jStr (s : String)
  | jArr (items : List JVal)
  | jObj (fields : List (String × JVal))

/-- Lookup in a decoded JSON object, i.e. python dict.get(k) (json object
keys are unique; first match). -/
def dictGet (fields : List (String × JVal)) (k : String) : Option JVal :=
  (fields.find? (fun kv => kv.1 = k)).map (fun kv => kv.2)

/-- Python truthiness bool(v) of a decoded JSON value, as used by
V3Response.from_dict on the success field. -/
def pyTruthy : JVal → Bool
  | .jNull => false
  | .jBool b => b
  | .jInt n => n ≠ 0
  | .jFloat q => q ≠ 0
  | .jStr s => s ≠ ""
  | .jArr items => !items.isEmpty
  | .jObj fields => !fields.isEmpty

mutual

/-- Python str() of a decoded JSON value, as used by from_dict on the
action field. Container and float renderings are canonical stand-ins for
the python repr text (no claim inspects them); the string case, used on
well-typed payloads, is exact. -/
def pyStrOfJVal : JVal → String
  | .jStr s => s
  | .jNull => "None"
  | .jBool true => "True"
  | .jBool false => "False"
  | .jInt n => toString n
  | .jFloat q => toString q
  | .jArr items => "[" ++ pyReprItems items ++ "]"
  | .jObj fields => "\x7b" ++ pyReprFields fields ++ "\x7d"

/-- Comma-separated repr rendering of list items. -/
def pyReprItems : List JVal → String
  | [] => ""
  | [v] => pyStrOfJVal v
  | v :: rest => pyStrOfJVal v ++ ", " ++ pyReprItems rest

/-- Comma-separated repr rendering of object entries. -/
def pyReprFields : List (String × JVal) → String
  | [] => ""
  | [kv] => kv.1 ++ ": " ++ pyStrOfJVal kv.2
  | kv :: rest => kv.1 ++ ": " ++ pyStrOfJVal kv.2 ++ ", " ++ pyReprFields rest

end

/-- Embedding of models.V3Response. The meta field keeps the raw meta dict
selected on models.py lines 64-65; its decomposition into V3Meta fields
(lines 40-52) is not inspected by any claim under study and is not
modelled further. Python None is modelled as jNull. -/
structure V3Response where
  success : Bool
  action : String
  data : JVal
  meta : List (String × JVal)

/-- Embedding of models.V3Response.from_dict: success defaults to True when
the key is absent and is otherwise the truthiness of the value; action is
str() of the value, defaulting to the empty string; data defaults to None;
meta keeps the meta dict when it is a dict and is empty otherwise. -/
def V3Response_from_dict (fields : List (String × JVal)) : V3Response :=
  { success :=
      match dictGet fields "success" with
      | some v => pyTruthy v
      | none => true
    action :=
      match dictGet fields "action" with
      | some v => pyStrOfJVal v
      | none => ""
    data := (dictGet fields "data").getD .jNull
    meta :=
      match dictGet fields "meta" with
      | some (.jObj ms) => ms
      | _ => [] }

/-! ## HTTP responses and classification (client.py lines 57-64, 127-142,
443-518) -/

/-- The response headers the execution engine reads, each already modelled
at the granularity of the parse the source applies to it. -/
structure ResponseHeaders where
  contentType : Option String := none
  retryAfter : RetryAfterHeader := .absent
  creditsRemaining : HeaderVal := .absent
  creditsUsed : HeaderVal := .absent
  minSdk : MinSdkHeader := .absent
  requestId : Option String := none
  executionTimeMs : HeaderVal := .absent
  totalCount : HeaderVal := .absent
  rowCount : HeaderVal := .absent

/-- Embedding of client._content_type: the Content-Type header (defaulting
to the empty string) up to the first semicolon, stripped and lowercased. -/
def _content_type (contentTypeHdr : Option String) : String :=
  pyLower (pyStrip (beforeSemicolon (contentTypeHdr.getD "")))

/-- Model of python str.endswith via character lists. -/
def pyEndsWith (s suffix : String) : Bool :=
  suffix.toList.isSuffixOf s.toList

/-- Embedding of client._is_json_response: the content-type base is
application/json or ends in +json. -/
def _is_json_response (contentTypeHdr : Option String) : Bool :=
  let base := _content_type contentTypeHdr
  base = "application/json" || pyEndsWith base "+json"

/-- Embedding of models.V3BinaryMeta. -/
structure V3BinaryMeta where
  request_id : Option String := none
  execution_time_ms : Option ℤ := none
  total_count : Option ℤ := none
  row_count : Option ℤ := none

/-- Embedding of client._parse_binary_meta over the four metadata
headers. -/
def _parse_binary_meta (h : ResponseHeaders) : V3BinaryMeta :=
  { request_id := h.requestId
    execution_time_ms := header_get_int h.executionTimeMs
    total_count := header_get_int h.totalCount
    row_count := header_get_int h.rowCount }

/-- Embedding of models.V3BinaryResponse. -/
structure V3BinaryResponse where
  action : String
  format : String
  content_type : String
  content : List ℕ
  meta : V3BinaryMeta
  headers : ResponseHeaders

/-- One HTTP response as the execution engine observes it: status code,
headers, the outcome of response.json() (None when decoding raises), and
the raw body bytes. -/
structure AttemptResponse where
  status : ℤ
  headers : ResponseHeaders := {}
  jsonBody : Option JVal := none
  content : List ℕ := []

/-- The python expression str(effective_format or "binary"): an absent or
falsy (empty) resolved format gives the string binary. -/
def effFormatString (eff : Option String) : String :=
  match eff with
  | some s => if s = "" then "binary" else s
  | none => "binary"

/-- How one call to TepiloraClient.call resolves, with the raising paths
made explicit constructors: apiError models the TepiloraAPIError raised by
_raise_for_error_response on a non-2xx final response (its message
extraction, lines 194-230, is not inspected by any claim); protocolError
the TepiloraAPIError for a non-object JSON top level; jsonDecodeError a
response.json() failure propagating; configError the ValueError from
_format_to_accept raised before any request; exhausted the fall-through
raise after the loop (unreachable for the fuel call supplies). -/
inductive CallOutcome where
  | structured (r : V3Response)
  | binary (r : V3BinaryResponse)
  | apiError (status : ℤ)
  | protocolError
  | jsonDecodeError
  | configError (msg : String)
  | exhausted

/-- Terminal processing of a response in call (client.py lines 499-517):
raise for a non-2xx status, decode JSON content-types into a V3Response
(rejecting non-object top levels), and wrap any other content-type into a
V3BinaryResponse carrying the raw bytes and the resolved format string. -/
def classifyResponse (action : String) (eff : Option String)
    (r : AttemptResponse) : CallOutcome :=
  if 200 ≤ r.status ∧ r.status < 300 then
    if _is_json_response r.headers.contentType then
      match r.jsonBody with
      | none => .jsonDecodeError
      | some (.jObj fields) => .structured (V3Response_from_dict fields)
      | some _ => .protocolError
    else
      .binary
        { action := action
          format := effFormatString eff
          content_type := _content_type r.headers.contentType
          content := r.content
          meta := _parse_binary_meta r.headers
          headers := r.headers }
  else .apiError r.status

/-- The retry-relevant part of client._ClientConfig. The constructor clamps
max_retries with max(0, _) so a natural number is faithful. -/
structure ClientConfig where
  max_retries : ℕ
  retry_backoff : ℚ
  retry_status_codes : List ℤ

/-- The mutable telemetry the engine updates per response: the client
instance credit counters and the process-global _upgrade_warned flag. -/
structure ClientState where
  creditsRemaining : Option ℤ := none
  creditsUsed : ℤ := 0
  upgradeWarned : Bool := false

/-- The two per-attempt telemetry side effects of call (client.py lines
480-481): credits update then SDK-version check. -/
def updateTelemetry (current : Option (List ℤ)) (st : ClientState)
    (h : ResponseHeaders) : ClientState :=
  let credits := _update_credits_from_headers st.creditsRemaining
    st.creditsUsed h.creditsRemaining h.creditsUsed
  let sdk := _check_sdk_version current st.upgradeWarned h.minSdk
  { creditsRemaining := credits.1, creditsUsed := credits.2,
    upgradeWarned := sdk.1 }

/-- Result of running the call loop: final telemetry state, outcome, how
many requests were issued, and the sleep delays taken between attempts. -/
structure CallRun where
  state : ClientState
  outcome : CallOutcome
  requests : ℕ
  sleeps : List ℚ

/-- Embedding of the retry loop of TepiloraClient.call (client.py lines
470-518). The environment supplies the response for each attempt index and
the jitter each backoff draw would produce; remaining is the fuel
max_retries + 1 - attempt, so the exhausted outcome is the unreachable
fall-through raise. Every attempt updates telemetry before the retry
decision. -/
def callLoop (current : Option (List ℤ)) (cfg : ClientConfig)
    (action : String) (eff : Option String)
    (responses : ℕ → AttemptResponse) (jitter : ℕ → ℚ) :
    ℕ → ℕ → ClientState → CallRun
  | 0, _, st => { state := st, outcome := .exhausted, requests := 0, sleeps := [] }
  | remaining + 1, attempt, st =>
    let r := responses attempt
    let st1 := updateTelemetry current st r.headers
    if _should_retry_status r.status cfg.retry_status_codes = true ∧
        attempt < cfg.max_retries then
      let delay := selectDelay r.status r.headers.retryAfter
        cfg.retry_backoff attempt (jitter attempt)
      let rest := callLoop current cfg action eff responses jitter
        remaining (attempt + 1) st1
      { rest with requests := rest.requests + 1, sleeps := delay :: rest.sleeps }
    else
      { state := st1, outcome := classifyResponse action eff r,
        requests := 1, sleeps := [] }

/-- Embedding of TepiloraClient.call given the already-resolved effective
format (options.format when present, else response_format): when the
format is a non-blank string its Accept translation runs before the loop,
so a format error yields zero issued requests; otherwise the retry loop
runs with fuel max_retries + 1 starting at attempt 0. -/
def call (current : Option (List ℤ)) (cfg : ClientConfig) (action : String)
    (eff : Option String) (responses : ℕ → AttemptResponse)
    (jitter : ℕ → ℚ) (st : ClientState) : CallRun :=
  match eff with
  | some f =>
    if pyStrip f ≠ "" then
      match _format_to_accept f with
      | .error msg =>
        { state := st, outcome := .configError msg, requests := 0, sleeps := [] }
      | .ok _ =>
        callLoop current cfg action eff responses jitter (cfg.max_retries + 1) 0 st
    else
      callLoop current cfg action eff responses jitter (cfg.max_retries + 1) 0 st
  | none =>
    callLoop current cfg action eff responses jitter (cfg.max_retries + 1) 0 st

/-- How call_data resolves, with the raising path explicit: bytes for a
binary result, the data field for a successful structured result, a
TepiloraAPIError wrapping the full response for success false, and
propagation of whatever call itself raised. -/
inductive CallDataOutcome where
  | bytes (content : List ℕ)
  | data (v : JVal)
  | successFalseError (r : V3Response)
  | propagated (o : CallOutcome)

/-- Embedding of the unwrapping step of TepiloraClient.call_data (client.py
lines 538-543) applied to the outcome of call. -/
def call_data_of : CallOutcome → CallDataOutcome
  | .binary r => .bytes r.content
  | .structured r =>
    if r.success then .data r.data else .successFalseError r
  | o => .propagated o

/-- Embedding of TepiloraClient.call_data: call, then unwrap. -/
def call_data (current : Option (List ℤ)) (cfg : ClientConfig)
    (action : String) (eff : Option String)
    (responses : ℕ → AttemptResponse) (jitter : ℕ → ℚ)
    (st : ClientState) : CallDataOutcome :=
  call_data_of (call current cfg action eff responses jitter st).outcome

/-- The Min-SDK-Version headers of k consecutive responses starting at the
given attempt index, in the order the loop observes them. -/
def attemptSdkHeaders (responses : ℕ → AttemptResponse) : ℕ → ℕ → List MinSdkHeader
  | _, 0 => []
  | attempt, k + 1 =>
    (responses attempt).headers.minSdk :: attemptSdkHeaders responses (attempt + 1) k

/-! ## Theorems -/

/-- Element-wise description of sanitizeFields as a map. -/
theorem sanitizeFields_eq_map (fs : List (String × PyVal)) :
    sanitizeFields fs = fs.map (fun kv => (kv.1, sanitize_params kv.2)) := by
  induction fs with
  | nil => rfl
  | cons kv rest ih => cases kv; simp [sanitizeFields, ih]

/-- Element-wise description of sanitizeItems as a map. -/
theorem sanitizeItems_eq_map (xs : List PyVal) :
    sanitizeItems xs = xs.map sanitize_params := by
  induction xs with
  | nil => rfl
  | cons v rest ih => simp [sanitizeItems, ih]

mutual

/-- Applying the sanitizer twice gives the same value as applying it once. -/
theorem sanitize_params_idem_aux :
    ∀ v : PyVal, sanitize_params (sanitize_params v) = sanitize_params v
  | .pyNone => rfl
  | .pyBool _ => rfl
  | .pyInt _ => rfl
  | .pyFloat _ => rfl
  | .pyDecimal _ => rfl
  | .pyStr _ => rfl
  | .pyDate _ _ _ => rfl
  | .pyDatetime _ _ _ _ _ _ _ => rfl
  | .pyDict fields => by
      simp only [sanitize_params]
      rw [sanitizeFields_idem_aux fields]
  | .pyList items => by
      simp only [sanitize_params]
      rw [sanitizeItems_idem_aux items]
  | .pyTuple items => by
      simp only [sanitize_params]
      rw [sanitizeItems_idem_aux items]
  | .pyOther => rfl

/-- Field-list version of the idempotence lemma. -/
theorem sanitizeFields_idem_aux :
    ∀ fs : List (String × PyVal), sanitizeFields (sanitizeFields fs) = sanitizeFields fs
  | [] => rfl
  | (k, v) :: rest => by
      simp only [sanitizeFields]
      rw [sanitize_params_idem_aux v, sanitizeFields_idem_aux rest]

/-- Item-list version of the idempotence lemma. -/
theorem sanitizeItems_idem_aux :
    ∀ xs : List PyVal, sanitizeItems (sanitizeItems xs) = sanitizeItems xs
  | [] => rfl
  | v :: rest => by
      simp only [sanitizeItems]
      rw [sanitize_params_idem_aux v, sanitizeItems_idem_aux rest]

end

/-- C6: the sanitize step converts every Decimal to a float carrying the same
numeric value (in particular the fixed-point decimal 99.95 becomes the double
99.95, not a string), converts every date to its YYYY-MM-DD ISO-8601 string
and every datetime to its full ISO-8601 string including time, recurses
element-wise through dicts, lists and tuples, and leaves every other value
(None, bool, int, float, str, other objects) unchanged. -/
theorem sanitize_params_characterization :
    (∀ q : ℚ, sanitize_params (.pyDecimal q) = .pyFloat q) ∧
    (sanitize_params (.pyDecimal (99.95 : ℚ)) = .pyFloat (99.95 : ℚ)) ∧
    (∀ y m d : ℕ, sanitize_params (.pyDate y m d) = .pyStr (isoDate y m d)) ∧
    (∀ y m d hh mi ss us : ℕ,
      sanitize_params (.pyDatetime y m d hh mi ss us) =
        .pyStr (isoDatetime y m d hh mi ss us)) ∧
    (∀ fs, sanitize_params (.pyDict fs) =
        .pyDict (fs.map (fun kv => (kv.1, sanitize_params kv.2)))) ∧
    (∀ xs, sanitize_params (.pyList xs) = .pyList (xs.map sanitize_params)) ∧
    (∀ xs, sanitize_params (.pyTuple xs) = .pyList (xs.map sanitize_params)) ∧
    (sanitize_params .pyNone = .pyNone) ∧
    (∀ b, sanitize_params (.pyBool b) = .pyBool b) ∧
    (∀ n : ℤ, sanitize_params (.pyInt n) = .pyInt n) ∧
    (∀ q : ℚ, sanitize_params (.pyFloat q) = .pyFloat q) ∧
    (∀ s, sanitize_params (.pyStr s) = .pyStr s) ∧
    (sanitize_params .pyOther = .pyOther) := by
  refine ⟨fun _ => rfl, rfl, fun _ _ _ => rfl, fun _ _ _ _ _ _ _ => rfl, ?_, ?_, ?_,
    rfl, fun _ => rfl, fun _ => rfl, fun _ => rfl, fun _ => rfl, rfl⟩
  · intro fs; simp [sanitize_params, sanitizeFields_eq_map]
  · intro xs; simp [sanitize_params, sanitizeItems_eq_map]
  · intro xs; simp [sanitize_params, sanitizeItems_eq_map]

/-- C7: the sanitize step is idempotent; sanitizing already-sanitized params
yields the same value. -/
theorem sanitize_params_idempotent :
    ∀ v : PyVal, sanitize_params (sanitize_params v) = sanitize_params v :=
  sanitize_params_idem_aux

/-- Clamping at zero from below equals a max with zero. -/
theorem clamp_eq_max (x : ℚ) : (if x < 0 then 0 else x) = max x 0 := by
  rcases lt_or_le x 0 with h | h
  · simp [h, max_eq_right h.le]
  · simp [not_lt.mpr h, max_eq_left h]

/-- Values produced by the Retry-After parser are always nonnegative. -/
theorem parse_retry_after_nonneg (hdr : RetryAfterHeader) (d : ℚ)
    (h : _parse_retry_after hdr = some d) : 0 ≤ d := by
  cases hdr <;> simp only [_parse_retry_after] at h
  · exact absurd h (by simp)
  · exact absurd h (by simp)
  · rename_i q
    by_cases hq : 0 ≤ q
    · rw [if_pos hq] at h; cases h; exact hq
    · rw [if_neg hq] at h; cases h
  · rename_i s
    by_cases hs : 0 < s
    · rw [if_pos hs] at h; cases h; exact hs.le
    · rw [if_neg hs] at h; cases h; exact le_refl 0
  · exact absurd h (by simp)

/-- C1 counterexample: the claim asserts that whenever the status is 429 and
a Retry-After header is present, the sleep delay equals the parsed header
value clamped at 0. A present header whose numeric parse yields -5 refutes
this: _parse_retry_after rejects the negative numeric (returning None with
no date fallback), so the code sleeps the jittered backoff (here 1 with
base 1, attempt 0, jitter 1, a legal jitter in the 0.75 to 1.25 range)
rather than the clamped parsed value 0. -/
theorem selectDelay_claim_counterexample :
    ((3 : ℚ)/4 ≤ 1 ∧ (1 : ℚ) ≤ 5/4) ∧
    selectDelay 429 (RetryAfterHeader.numeric (-5)) 1 0 1 = 1 ∧
    (1 : ℚ) ≠ max (-5) 0 := by
  refine ⟨⟨by norm_num, by norm_num⟩, ?_, by norm_num⟩
  norm_num [selectDelay, _parse_retry_after, _compute_backoff]

/-- C1 (amended): for a retry attempt n, if the status is 429 and the
Retry-After header parses (nonnegative numeric seconds directly, or an HTTP
date converted to seconds-from-now with negatives clamped to 0), the sleep
delay equals that parsed value, which is already nonnegative; if the header
is absent, unparseable or a negative numeric, or the status is not 429, the
delay equals retry_backoff * 2^n * j for a jitter factor j in the interval
0.75 to 1.25, clamped to be nonnegative. -/
theorem selectDelay_spec (status : ℤ) (hdr : RetryAfterHeader) (base : ℚ)
    (n : ℕ) (j : ℚ) (hj : 3/4 ≤ j ∧ j ≤ 5/4) :
    (∀ d, status = 429 → _parse_retry_after hdr = some d →
      0 ≤ d ∧ selectDelay status hdr base n j = d) ∧
    ((status ≠ 429 ∨ _parse_retry_after hdr = none) →
      ∃ j2, 3/4 ≤ j2 ∧ j2 ≤ 5/4 ∧
        selectDelay status hdr base n j = max (base * 2 ^ n * j2) 0) := by
  constructor
  · intro d h429 hparse
    have hd : 0 ≤ d := parse_retry_after_nonneg hdr d hparse
    refine ⟨hd, ?_⟩
    simp only [selectDelay, h429, if_pos rfl, hparse]
    exact if_neg (not_lt.mpr hd)
  · intro h
    refine ⟨j, hj.1, hj.2, ?_⟩
    have hnone : (if status = 429 then _parse_retry_after hdr else none) = none := by
      by_cases h429 : status = 429
      · rcases h with h | h
        · exact absurd h429 h
        · simp [h429, h]
      · simp [h429]
    simp only [selectDelay, hnone, _compute_backoff]
    exact clamp_eq_max _

/-- Witness for the C1 theorem at a concrete honored Retry-After of 2
seconds on a 429. -/
theorem selectDelay_spec_witness :
    0 ≤ (2 : ℚ) ∧ selectDelay 429 (RetryAfterHeader.numeric 2) (1/2) 0 1 = 2 :=
  (selectDelay_spec 429 (RetryAfterHeader.numeric 2) (1/2) 0 1
    ⟨by norm_num, by norm_num⟩).1 2 rfl (by norm_num [_parse_retry_after])

/-- The retry predicate is false on every 4xx status other than 429,
whatever the configured set. -/
theorem should_retry_4xx_aux (status : ℤ) (codes : List ℤ)
    (h1 : 400 ≤ status) (h2 : status < 500) (h3 : status ≠ 429) :
    _should_retry_status status codes = false := by
  unfold _should_retry_status
  by_cases hm : status ∈ codes
  · simp [hm, h1, h2, h3]
  · simp [hm]

/-- C2: for every HTTP status s with 400 <= s < 500 and s different from
429, the retry decision is false for every configured retryable set, and
the execution engine issues exactly one request when the first response
carries such a status, regardless of max_retries. -/
theorem retry_never_for_4xx_non_429 (status : ℤ)
    (h1 : 400 ≤ status) (h2 : status < 500) (h3 : status ≠ 429) :
    (∀ codes : List ℤ, _should_retry_status status codes = false) ∧
    (∀ (current : Option (List ℤ)) (cfg : ClientConfig) (action : String)
      (eff : Option String) (responses : ℕ → AttemptResponse)
      (jitter : ℕ → ℚ) (st : ClientState),
      (responses 0).status = status →
      (callLoop current cfg action eff responses jitter
        (cfg.max_retries + 1) 0 st).requests = 1) := by
  refine ⟨fun codes => should_retry_4xx_aux status codes h1 h2 h3, ?_⟩
  intro current cfg action eff responses jitter st h0
  simp only [callLoop]
  rw [if_neg]
  · intro hc
    have := hc.1
    rw [h0, should_retry_4xx_aux status cfg.retry_status_codes h1 h2 h3] at this
    exact Bool.false_ne_true this

/-- Witness for the C2 theorem at status 404 with a configured set that
even contains 404. -/
theorem retry_never_for_4xx_non_429_witness :
    _should_retry_status 404 [404, 503] = false :=
  (retry_never_for_4xx_non_429 404 (by norm_num) (by norm_num)
    (by norm_num)).1 [404, 503]

/-- C3 counterexample: the claim asserts that a format string containing a
slash passes through verbatim as the Accept header. The string with a
leading space before x/y contains a slash, yet the code sends its stripped
form, which differs from the original string. -/
theorem format_to_accept_claim_counterexample :
    _format_to_accept " x/y" = Except.ok "x/y" ∧
    (" x/y").toList.contains '/' = true ∧
    ("x/y" : String) ≠ " x/y" :=
  ⟨rfl, rfl, by decide⟩

/-- C3 (amended): for every resolved response-format string f whose
stripped form is non-empty: if f stripped and lowercased is one of the
keywords json, arrow, parquet, csv, the Accept header is the corresponding
fixed MIME type; otherwise if f contains a slash, f stripped of surrounding
whitespace passes through as the Accept header; otherwise a configuration
error listing the valid keywords is raised, and this raise happens before
any network request is issued (the call issues zero requests). -/
theorem format_to_accept_spec (f : String) :
    (pyLower (pyStrip f) = "json" →
      _format_to_accept f = .ok "application/json") ∧
    (pyLower (pyStrip f) = "arrow" →
      _format_to_accept f = .ok "application/vnd.apache.arrow.stream") ∧
    (pyLower (pyStrip f) = "parquet" →
      _format_to_accept f = .ok "application/vnd.apache.parquet") ∧
    (pyLower (pyStrip f) = "csv" →
      _format_to_accept f = .ok "text/csv") ∧
    (pyLower (pyStrip f) ∉ (["json", "arrow", "parquet", "csv"] : List String) →
      f.toList.contains '/' = true →
      _format_to_accept f = .ok (pyStrip f)) ∧
    (pyLower (pyStrip f) ∉ (["json", "arrow", "parquet", "csv"] : List String) →
      f.toList.contains '/' = false →
      _format_to_accept f = .error (formatErrorMessage f)) ∧
    (∀ (current : Option (List ℤ)) (cfg : ClientConfig) (action : String)
      (responses : ℕ → AttemptResponse) (jitter : ℕ → ℚ) (st : ClientState)
      (msg : String),
      pyStrip f ≠ "" → _format_to_accept f = .error msg →
      (call current cfg action (some f) responses jitter st).outcome =
        .configError msg ∧
      (call current cfg action (some f) responses jitter st).requests = 0) := by
  refine ⟨?_, ?_, ?_, ?_, ?_, ?_, ?_⟩
  · intro h; simp [_format_to_accept, h]
  · intro h; simp [_format_to_accept, h]
  · intro h; simp [_format_to_accept, h]
  · intro h; simp [_format_to_accept, h]
  · intro hk hc
    simp only [List.mem_cons, List.mem_singleton, not_or] at hk
    obtain ⟨hk1, hk2, hk3, hk4, -⟩ := hk
    simp at hc
    simp [_format_to_accept, hk1, hk2, hk3, hk4, hc]
  · intro hk hc
    simp only [List.mem_cons, List.mem_singleton, not_or] at hk
    obtain ⟨hk1, hk2, hk3, hk4, -⟩ := hk
    simp at hc
    simp [_format_to_accept, hk1, hk2, hk3, hk4, hc]
  · intro current cfg action responses jitter st msg hne herr
    simp only [call]
    rw [if_pos hne, herr]
    exact ⟨rfl, rfl⟩

/-- Witness for the C3 theorem: the unknown keyword bogus raises the
configuration error before any request is issued. -/
theorem format_to_accept_spec_witness :
    (call none ⟨3, 1, [429, 503]⟩ "securities.search" (some "bogus")
      (fun _ => { status := 200 }) (fun _ => 1) {}).outcome =
        .configError (formatErrorMessage "bogus") ∧
    (call none ⟨3, 1, [429, 503]⟩ "securities.search" (some "bogus")
      (fun _ => { status := 200 }) (fun _ => 1) {}).requests = 0 :=
  (format_to_accept_spec "bogus").2.2.2.2.2.2 none ⟨3, 1, [429, 503]⟩
    "securities.search" (fun _ => { status := 200 }) (fun _ => 1) {}
    (formatErrorMessage "bogus") (by decide) rfl

/-- C4: for a 2xx final response, a JSON content-type (base
application/json or any +json suffix) is decoded as a structured
V3Response, a JSON body whose top-level value is not an object yields the
protocol-violation error rather than being accepted, and any other
content-type yields a V3BinaryResponse whose content is exactly the raw
body bytes and whose format is the resolved format string (the string
binary when no format was requested). -/
theorem classifyResponse_spec (action : String) (eff : Option String)
    (r : AttemptResponse) (h2xx : 200 ≤ r.status ∧ r.status < 300) :
    (_is_json_response r.headers.contentType = true →
      (∀ fields, r.jsonBody = some (.jObj fields) →
        classifyResponse action eff r =
          .structured (V3Response_from_dict fields)) ∧
      (∀ v, r.jsonBody = some v → (∀ fields, v ≠ .jObj fields) →
        classifyResponse action eff r = .protocolError)) ∧
    (_is_json_response r.headers.contentType = false →
      ∃ b, classifyResponse action eff r = .binary b ∧
        b.content = r.content ∧
        b.format = effFormatString eff ∧
        (∀ f, eff = some f → f ≠ "" → b.format = f) ∧
        (eff = none → b.format = "binary")) := by
  constructor
  · intro hjson
    constructor
    · intro fields hb
      simp [classifyResponse, h2xx, hjson, hb]
    · intro v hb hno
      cases v with
      | jObj fields => exact absurd rfl (hno fields)
      | jNull => simp [classifyResponse, h2xx, hjson, hb]
      | jBool b => simp [classifyResponse, h2xx, hjson, hb]
      | jInt n => simp [classifyResponse, h2xx, hjson, hb]
      | jFloat q => simp [classifyResponse, h2xx, hjson, hb]
      | jStr s => simp [classifyResponse, h2xx, hjson, hb]
      | jArr items => simp [classifyResponse, h2xx, hjson, hb]
  · intro hjson
    refine ⟨{ action := action, format := effFormatString eff,
              content_type := _content_type r.headers.contentType,
              content := r.content, meta := _parse_binary_meta r.headers,
              headers := r.headers }, ?_, rfl, rfl, ?_, ?_⟩
    · simp [classifyResponse, h2xx, hjson]
    · intro f hf hne
      subst hf
      simp [effFormatString, hne]
    · intro hf
      subst hf
      rfl

/-- Witness for the C4 theorem: a 200 response with the Arrow stream
content-type and body bytes 1, 2, 3 under requested format arrow yields a
binary result carrying exactly those bytes and the format arrow. -/
theorem classifyResponse_spec_witness :
    ∃ b, classifyResponse "securities.search" (some "arrow")
      { status := 200,
        headers := { contentType := some "application/vnd.apache.arrow.stream" },
        content := [1, 2, 3] } = .binary b ∧
      b.content = [1, 2, 3] ∧
      b.format = effFormatString (some "arrow") ∧
      (∀ f, (some "arrow" : Option String) = some f → f ≠ "" → b.format = f) ∧
      ((some "arrow" : Option String) = none → b.format = "binary") :=
  (classifyResponse_spec "securities.search" (some "arrow")
    { status := 200,
      headers := { contentType := some "application/vnd.apache.arrow.stream" },
      content := [1, 2, 3] } ⟨by norm_num, by norm_num⟩).2 (by decide)

/-- C5: call_data unwraps a binary result to exactly its raw content bytes;
it unwraps a structured result to the data field when success is true and
raises the typed error wrapping the full response when success is false. -/
theorem call_data_spec :
    (∀ b : V3BinaryResponse, call_data_of (.binary b) = .bytes b.content) ∧
    (∀ r : V3Response, r.success = true →
      call_data_of (.structured r) = .data r.data) ∧
    (∀ r : V3Response, r.success = false →
      call_data_of (.structured r) = .successFalseError r) := by
  refine ⟨fun b => rfl, ?_, ?_⟩
  · intro r h; simp [call_data_of, h]
  · intro r h; simp [call_data_of, h]

/-- Witness for the C5 theorem on a concrete failing structured response. -/
theorem call_data_spec_witness :
    call_data_of (.structured
      { success := false, action := "a", data := .jNull, meta := [] }) =
      .successFalseError
        { success := false, action := "a", data := .jNull, meta := [] } :=
  call_data_spec.2.2
    { success := false, action := "a", data := .jNull, meta := [] } rfl

/-- Single-step description of the credit update: used is increased by the
parsed used value (0 when absent), remaining is overwritten only by a
parsed remaining value. -/
theorem update_credits_step (rem : Option ℤ) (used : ℤ) (h1 h2 : HeaderVal) :
    _update_credits_from_headers rem used h1 h2 =
      ((header_get_int h1).elim rem some,
       used + (header_get_int h2).getD 0) := by
  cases h1 <;> cases h2 <;>
    simp [_update_credits_from_headers, parse_credit_headers, header_get_int]

/-- The used counter after a sequence of responses is the initial value
plus the sum of all parsed used headers. -/
theorem processCredits_used (hs : List (HeaderVal × HeaderVal)) :
    ∀ (rem : Option ℤ) (used : ℤ),
      (processCredits (rem, used) hs).2 =
        used + (hs.map (fun h => (header_get_int h.2).getD 0)).sum := by
  induction hs with
  | nil => intro rem used; simp [processCredits]
  | cons h rest ih =>
    intro rem used
    simp only [processCredits, List.foldl_cons, update_credits_step] at *
    rw [ih]
    simp [add_assoc]

/-- The remaining counter after a sequence of responses is the last parsed
remaining header, or the initial value when none parsed. -/
theorem processCredits_remaining (hs : List (HeaderVal × HeaderVal)) :
    ∀ (rem : Option ℤ) (used : ℤ),
      (processCredits (rem, used) hs).1 =
        lastObserved rem (hs.map (fun h => header_get_int h.1)) := by
  induction hs with
  | nil => intro rem used; simp [processCredits, lastObserved]
  | cons h rest ih =>
    intro rem used
    simp only [processCredits, List.foldl_cons, update_credits_step,
      lastObserved, List.map_cons] at *
    rw [ih]
    cases header_get_int h.1 <;> simp [lastObserved]

/-- C8: across a sequence of responses processed by one client instance,
the used counter accumulates additively (each parsed used header value is
added, never replacing prior sums, hence monotone when the parsed values
are nonnegative), the remaining counter is the last parsed remaining
header value (last write wins), and an absent, empty or non-numeric credit
header leaves the counters unchanged rather than raising. -/
theorem credits_telemetry_spec :
    (∀ (rem : Option ℤ) (used : ℤ) (hs : List (HeaderVal × HeaderVal)),
      (processCredits (rem, used) hs).2 =
        used + (hs.map (fun h => (header_get_int h.2).getD 0)).sum) ∧
    (∀ (rem : Option ℤ) (used : ℤ) (hs : List (HeaderVal × HeaderVal)),
      (processCredits (rem, used) hs).1 =
        lastObserved rem (hs.map (fun h => header_get_int h.1))) ∧
    (∀ (rem : Option ℤ) (used : ℤ),
      _update_credits_from_headers rem used .absent .absent = (rem, used) ∧
      _update_credits_from_headers rem used .empty .empty = (rem, used) ∧
      _update_credits_from_headers rem used .nonNumeric .nonNumeric = (rem, used)) ∧
    (∀ (rem : Option ℤ) (used : ℤ) (hs : List (HeaderVal × HeaderVal)),
      (∀ p ∈ hs, ∀ u : ℤ, header_get_int p.2 = some u → 0 ≤ u) →
      used ≤ (processCredits (rem, used) hs).2) := by
  refine ⟨fun rem used hs => processCredits_used hs rem used,
    fun rem used hs => processCredits_remaining hs rem used,
    fun rem used => ⟨rfl, rfl, rfl⟩, ?_⟩
  intro rem used hs hnn
  rw [processCredits_used hs rem used]
  refine le_add_of_nonneg_right (List.sum_nonneg ?_)
  intro x hx
  obtain ⟨p, hp, rfl⟩ := List.mem_map.mp hx
  cases hv : header_get_int p.2 with
  | none => simp [hv]
  | some u => simpa [hv] using hnn p hp u hv

/-- Witness for the C8 theorem: a response adding 3 used credits followed
by one with unparsable headers leaves the accumulator monotone. -/
theorem credits_telemetry_spec_witness :
    (0 : ℤ) ≤ (processCredits (none, 0)
      [(HeaderVal.num 120, HeaderVal.num 3),
       (HeaderVal.nonNumeric, HeaderVal.absent)]).2 :=
  credits_telemetry_spec.2.2.2 none 0
    [(HeaderVal.num 120, HeaderVal.num 3),
     (HeaderVal.nonNumeric, HeaderVal.absent)]
    (by
      intro p hp u hu
      simp only [List.mem_cons, List.not_mem_nil, or_false] at hp
      rcases hp with rfl | rfl
      · simp [header_get_int] at hu; omega
      · simp [header_get_int] at hu)

/-- Once the flag is set, every later check is a no-op that emits
nothing. -/
theorem runSdkChecks_warned (cur : Option (List ℤ)) :
    ∀ hs : List MinSdkHeader, runSdkChecks cur true hs = (true, 0) := by
  intro hs
  induction hs with
  | nil => rfl
  | cons h rest ih => simp [runSdkChecks, _check_sdk_version, ih]

/-- From an unset flag, one check step sets the flag exactly when it emits
the advisory. -/
theorem sdk_step_flag_eq_emit (cur : Option (List ℤ)) (h : MinSdkHeader) :
    (_check_sdk_version cur false h).1 = (_check_sdk_version cur false h).2 := by
  cases h with
  | absent => rfl
  | malformed => rfl
  | ver v =>
    cases cur with
    | none => rfl
    | some c =>
      cases hlt : pyTupleLt c v <;> simp [_check_sdk_version, hlt]

/-- Any sequence of checks emits the advisory at most once. -/
theorem runSdkChecks_le_one (cur : Option (List ℤ)) :
    ∀ (hs : List MinSdkHeader) (warned : Bool),
      (runSdkChecks cur warned hs).2 ≤ 1 := by
  intro hs
  induction hs with
  | nil => intro warned; simp [runSdkChecks]
  | cons h rest ih =>
    intro warned
    cases warned
    · simp only [runSdkChecks]
      cases hs2 : (_check_sdk_version cur false h).2
      · simpa [hs2] using ih (_check_sdk_version cur false h).1
      · have h1 : (_check_sdk_version cur false h).1 = true := by
          rw [sdk_step_flag_eq_emit, hs2]
        simp [hs2, h1, runSdkChecks_warned]
    · simp [runSdkChecks_warned]

/-- The call loop applies the SDK-version check once per issued request, in
order: its final flag is the fold of the per-response checks over exactly
the headers of the attempts it issued. -/
theorem callLoop_sdk_fold (cur : Option (List ℤ)) (cfg : ClientConfig)
    (action : String) (eff : Option String)
    (responses : ℕ → AttemptResponse) (jitter : ℕ → ℚ) :
    ∀ (remaining attempt : ℕ) (st : ClientState),
      (callLoop cur cfg action eff responses jitter remaining attempt
        st).state.upgradeWarned =
      (runSdkChecks cur st.upgradeWarned
        (attemptSdkHeaders responses attempt
          (callLoop cur cfg action eff responses jitter remaining attempt
            st).requests)).1 := by
  intro remaining
  induction remaining with
  | zero => intro attempt st; simp [callLoop, attemptSdkHeaders, runSdkChecks]
  | succ rem ih =>
    intro attempt st
    simp only [callLoop]
    split
    · simp only [attemptSdkHeaders, runSdkChecks]
      exact ih (attempt + 1) _
    · simp [attemptSdkHeaders, runSdkChecks, updateTelemetry]

/-- Whenever the loop runs at all (fuel at least 1, as call always
supplies), at least one request is issued, so the per-attempt telemetry
runs even on an attempt that ends in terminal failure. -/
theorem callLoop_requests_pos (cur : Option (List ℤ)) (cfg : ClientConfig)
    (action : String) (eff : Option String)
    (responses : ℕ → AttemptResponse) (jitter : ℕ → ℚ)
    (remaining attempt : ℕ) (st : ClientState) :
    1 ≤ (callLoop cur cfg action eff responses jitter (remaining + 1)
      attempt st).requests := by
  simp only [callLoop]
  split
  · simp
  · simp

/-- C9: the minimum-SDK-version check is a total function that never
raises: an absent or malformed header, or an unparsable client version, is
a no-op; across any sequence of responses in one process the advisory is
emitted at most once, and once the flag is set no later response emits it
again; furthermore the execution engine applies the check once per issued
request, in order, including on the final attempt, and issues at least one
request whenever it has fuel. -/
theorem sdk_version_advisory_spec :
    (∀ (cur : Option (List ℤ)) (warned : Bool),
      _check_sdk_version cur warned .absent = (warned, false) ∧
      _check_sdk_version cur warned .malformed = (warned, false) ∧
      ∀ hdr, _check_sdk_version none warned hdr = (warned, false)) ∧
    (∀ (cur : Option (List ℤ)) (warned : Bool) (hs : List MinSdkHeader),
      (runSdkChecks cur warned hs).2 ≤ 1) ∧
    (∀ (cur : Option (List ℤ)) (hs : List MinSdkHeader),
      runSdkChecks cur true hs = (true, 0)) ∧
    (∀ (cur : Option (List ℤ)) (cfg : ClientConfig) (action : String)
      (eff : Option String) (responses : ℕ → AttemptResponse)
      (jitter : ℕ → ℚ) (remaining attempt : ℕ) (st : ClientState),
      (callLoop cur cfg action eff responses jitter remaining attempt
        st).state.upgradeWarned =
      (runSdkChecks cur st.upgradeWarned
        (attemptSdkHeaders responses attempt
          (callLoop cur cfg action eff responses jitter remaining attempt
            st).requests)).1) ∧
    (∀ (cur : Option (List ℤ)) (cfg : ClientConfig) (action : String)
      (eff : Option String) (responses : ℕ → AttemptResponse)
      (jitter : ℕ → ℚ) (remaining attempt : ℕ) (st : ClientState),
      1 ≤ (callLoop cur cfg action eff responses jitter (remaining + 1)
        attempt st).requests) := by
  refine ⟨?_, fun cur warned hs => runSdkChecks_le_one cur hs warned,
    fun cur hs => runSdkChecks_warned cur hs,
    fun cur cfg action eff responses jitter remaining attempt st =>
      callLoop_sdk_fold cur cfg action eff responses jitter remaining attempt st,
    fun cur cfg action eff responses jitter remaining attempt st =>
      callLoop_requests_pos cur cfg action eff responses jitter remaining attempt st⟩
  intro cur warned
  refine ⟨?_, ?_, ?_⟩
  · cases warned <;> rfl
  · cases warned <;> rfl
  · intro hdr; cases hdr <;> cases warned <;> rfl

/-- C10: a decoded JSON object payload lacking a success key produces a
structured result whose success field defaults to true, so call_data on
such a response returns its data field instead of raising the
application-level failure. -/
theorem from_dict_success_default (fields : List (String × JVal))
    (h : dictGet fields "success" = none) :
    (V3Response_from_dict fields).success = true ∧
    call_data_of (.structured (V3Response_from_dict fields)) =
      .data ((dictGet fields "data").getD .jNull) := by
  have hs : (V3Response_from_dict fields).success = true := by
    simp [V3Response_from_dict, h]
  refine ⟨hs, ?_⟩
  simp only [call_data_of, hs]
  rfl

/-- Witness for the C10 theorem on a payload carrying only a data field. -/
theorem from_dict_success_default_witness :
    (V3Response_from_dict [("data", JVal.jInt 5)]).success = true ∧
    call_data_of (.structured (V3Response_from_dict [("data", JVal.jInt 5)])) =
      .data ((dictGet [("data", JVal.jInt 5)] "data").getD .jNull) :=
  from_dict_success_default [("data", JVal.jInt 5)] rfl

end Tepilora
